import Mathlib

/-!
Shallow embedding of `celery/worker/consumer/__init__.py` (the Consumer core
of the celery worker): the `Consumer` message-ingestion path (`on_task`,
`apply_eta_task`, `on_decode_error`, the `info` property), the
`Namespace.shutdown` two-phase sweep, the connection-establishment logic
(`_open_connection` and its `_error_handler`), and the supervisory
`Consumer.start` loop.

External collaborators (broker connection, `to_timestamp`, `safe_repr`,
`humanize_seconds`, logging) are modelled by data carrying their observable
outcomes; every control-flow decision made by the module itself is translated
from the source.
-/

namespace Celery

/-- Result of `to_timestamp(task.eta)` for an ETA value: `timestamp = none`
models the call raising `OverflowError`, `some ts` its numeric result.
`dt` is the datetime's printed form (used in the error log), `iso` its
`isoformat()` (used in the `task-received` event). -/
structure EtaVal where
  dt : String
  iso : String
  timestamp : Option Nat
  deriving DecidableEq, Repr

/-- A decoded task delivery, with the fields `Consumer.on_task` reads.
`revoked` is the outcome of `task.revoked()`; `retries` is
`request_dict.get('retries', ...)` before the default `0` is applied;
`safeInfo` is `task.info(safe=True)`. -/
structure Task where
  id : String
  name : String
  args : String
  kwargs : String
  retries : Option Nat
  revoked : Bool
  eta : Option EtaVal
  expires : Option String
  safeInfo : String
  deriving DecidableEq, Repr

/-- Observable events emitted by the ingestion path: log lines, the
`task-received` event, broker acks/rejects, QoS deltas, `task_reserved`,
ready-queue puts and `timer.apply_at` calls. -/
inductive Ev where
  | gotTaskInfo (t : Task)
  | taskReceived (uuid name args kwargs : String) (retries : Nat)
      (eta : Option String) (expires : Option String)
  | etaOverflowError (etaRepr : String) (safeInfo : String)
  | critDecodeError (exc contentType contentEncoding body : String)
  | ack
  | reject
  | qosInc
  | qosDec
  | taskReserved (id : String)
  | readyPut (id : String)
  | timerApplyAt (ts : Nat) (id : String) (priority : Nat)
  deriving DecidableEq, Repr

/-- The mutable state `on_task` / `apply_eta_task` touch: the pending QoS
delta (`increment_eventually` / `decrement_eventually`), the timer schedule,
the ready queue, and the reserved set (`state.task_reserved`). -/
structure ConsumerState where
  qosPending : Int
  timer : List (Nat × Task × Nat)
  readyQueue : List Task
  reserved : List Task
  deriving DecidableEq, Repr

/-- `Consumer.on_task`: drop revoked tasks; optionally log at INFO and send
the `task-received` event; an ETA task either fails timestamp conversion
(log ERROR, `task.acknowledge()`) or increments QoS and is scheduled on the
timer at priority 6; a non-ETA task is reserved and put on the ready queue. -/
def onTask (doesInfo dispatcherEnabled : Bool) (t : Task) (s : ConsumerState) :
    ConsumerState × List Ev :=
  if t.revoked then (s, [])
  else
    let infoEvs := if doesInfo then [Ev.gotTaskInfo t] else []
    let recvEvs := if dispatcherEnabled then
        [Ev.taskReceived t.id t.name t.args t.kwargs (t.retries.getD 0)
          (t.eta.map EtaVal.iso) t.expires]
      else []
    let pre := infoEvs ++ recvEvs
    match t.eta with
    | some e =>
      match e.timestamp with
      | none => (s, pre ++ [Ev.etaOverflowError e.dt t.safeInfo, Ev.ack])
      | some ts =>
          ({ s with qosPending := s.qosPending + 1,
                    timer := s.timer ++ [(ts, t, 6)] },
           pre ++ [Ev.qosInc, Ev.timerApplyAt ts t.id 6])
    | none =>
        ({ s with reserved := s.reserved ++ [t],
                  readyQueue := s.readyQueue ++ [t] },
         pre ++ [Ev.taskReserved t.id, Ev.readyPut t.id])

/-- `Consumer.apply_eta_task`: the timer callback reserves the task, puts it
on the ready queue, then calls `qos.decrement_eventually()`. -/
def applyEtaTask (t : Task) (s : ConsumerState) : ConsumerState × List Ev :=
  ({ s with reserved := s.reserved ++ [t],
            readyQueue := s.readyQueue ++ [t],
            qosPending := s.qosPending - 1 },
   [Ev.taskReserved t.id, Ev.readyPut t.id, Ev.qosDec])

/-- An ETA ingestion (`on_task`) or a timer fire (`apply_eta_task`). -/
inductive EtaOp where
  | ingest (t : Task)
  | fire (t : Task)
  deriving DecidableEq, Repr

/-- Run a finite sequence of ingestions and fires, accumulating events. -/
def runOps (doesInfo dispatcherEnabled : Bool) :
    ConsumerState → List EtaOp → ConsumerState × List Ev
  | s, [] => (s, [])
  | s, op :: rest =>
    let r := match op with
      | .ingest t => onTask doesInfo dispatcherEnabled t s
      | .fire t => applyEtaTask t s
    let r2 := runOps doesInfo dispatcherEnabled r.1 rest
    (r2.1, r.2 ++ r2.2)

/-- A task that takes the successful ETA branch of `on_task`: not revoked,
`eta` set, and `to_timestamp` succeeds. -/
def successfulEtaIngest (t : Task) : Bool :=
  !t.revoked && (match t.eta with
    | some e => e.timestamp.isSome
    | none => false)

/-- Ingestions in a sequence of operations. -/
def countIngests (ops : List EtaOp) : Nat :=
  ops.countP (fun op => match op with | .ingest _ => true | .fire _ => false)

/-- Fires in a sequence of operations. -/
def countFires (ops : List EtaOp) : Nat :=
  ops.countP (fun op => match op with | .ingest _ => false | .fire _ => true)

/-! ### `Namespace.shutdown` and `Namespace._shutdown_step` -/

/-- A boot-step component as seen by `Namespace._shutdown_step`: an identity
and its `delay_shutdown` attribute (`getattr(component, 'delay_shutdown',
False)`). The components list may hold `none` entries, modelling the falsy
values skipped by `if component:`. -/
structure ShutComponent where
  name : String
  delayShut : Bool
  deriving DecidableEq, Repr

/-- `Namespace._shutdown_step`: walk the components in order; skip falsy
entries; when `force` is unset a component with `delay_shutdown` is collected
into the returned `delayed` list instead of being shut down; every other
component gets `component.shutdown(parent)` (recorded in the call trace). -/
def shutdownStep : List (Option ShutComponent) → Bool →
    List (Option ShutComponent) × List ShutComponent
  | [], _ => ([], [])
  | none :: rest, force => shutdownStep rest force
  | some c :: rest, force =>
    if !force && c.delayShut then
      let r := shutdownStep rest force
      (some c :: r.1, r.2)
    else
      let r := shutdownStep rest force
      (r.1, c :: r.2)

/-- `Namespace.shutdown`: first pass over `parent.components` with
`force=False` collecting the delayed components, second pass over the delayed
list with `force=True`. Returns the full `component.shutdown(parent)` call
trace in order. -/
def nsShutdown (components : List (Option ShutComponent)) : List ShutComponent :=
  let r1 := shutdownStep components false
  let r2 := shutdownStep r1.1 true
  r1.2 ++ r2.2

/-! ### `Consumer._open_connection` and its `_error_handler` -/

/-- The two continuation templates the error handler chooses between:
`CONNECTION_RETRY_STEP` (`"Trying again {when}..."`) and
`CONNECTION_FAILOVER` (`"Will retry using next failover."`). `format`
is `.format(when=...)`; the failover template has no placeholder. -/
inductive StepTemplate where
  | retryStep
  | failover
  deriving DecidableEq, Repr

/-- `next_step.format(when=humanize_seconds(interval, 'in', ' '))`. -/
def StepTemplate.formatWhen : StepTemplate → String → String
  | .retryStep, whenStr => "Trying again " ++ whenStr ++ "..."
  | .failover, _ => "Will retry using next failover."

/-- `CONNECTION_FAILOVER`. -/
def connectionFailoverMsg : String := "Will retry using next failover."

/-- The broker connection object as read by `_error_handler`: its
`as_uri()` and its `alt` attribute (list of failover hosts; the empty list
models a falsy/absent `alt`). -/
structure BrokerConn where
  uri : String
  alt : List String
  deriving DecidableEq, Repr

/-- The fields passed to `error(CONNECTION_ERROR, conn.as_uri(), exc, ...)`:
the target URI, the exception, and the formatted continuation message. -/
structure ConnErrorLog where
  uri : String
  exc : String
  continuation : String
  deriving DecidableEq, Repr

/-- `Consumer._open_connection._error_handler`: choose
`CONNECTION_FAILOVER` when `getattr(conn, 'alt', None)` is truthy and
`interval == 0`, otherwise the default `CONNECTION_RETRY_STEP`; log the
connection URI, the exception, and the template formatted with
`humanize_seconds(interval, 'in', ' ')` (passed in as `humanize`). -/
def errorHandler (conn : BrokerConn) (humanize : Nat → String)
    (exc : String) (interval : Nat) : ConnErrorLog :=
  let nextStep : StepTemplate :=
    if conn.alt ≠ [] ∧ interval = 0 then .failover else .retryStep
  { uri := conn.uri, exc := exc,
    continuation := nextStep.formatWhen (humanize interval) }

/-- Calls `_open_connection` makes on the connection object. `ensureConn`
records the `ensure_connection(_error_handler, max_retries,
callback=maybe_shutdown)` invocation with its retry bound. -/
inductive OpenEv where
  | connectCall
  | ensureConn (maxRetries : Option Nat)
  deriving DecidableEq, Repr

/-- Outcomes of the connection attempts, supplied by the (external) broker
transport: what `conn.connect()` does (`none` = succeeds, `some e` = raises
`e`) and what `ensure_connection` eventually returns. -/
structure ConnBehavior where
  connectExc : Option String
  ensureOutcome : Except String Unit
  deriving Repr

/-- `Consumer._open_connection` after building the connection: when
`BROKER_CONNECTION_RETRY` is false, call `conn.connect()` directly and
return the connection (propagating any exception); otherwise hand off to
`conn.ensure_connection(_error_handler, BROKER_CONNECTION_MAX_RETRIES,
callback=maybe_shutdown)`. -/
def openConnection (brokerConnectionRetry : Bool) (maxRetries : Option Nat)
    (conn : ConnBehavior) : Except String Unit × List OpenEv :=
  if !brokerConnectionRetry then
    match conn.connectExc with
    | some e => (.error e, [.connectCall])
    | none => (.ok (), [.connectCall])
  else
    (conn.ensureOutcome, [.ensureConn maxRetries])

/-! ### `Consumer.on_decode_error` -/

/-- The fields of a received message that `on_decode_error` reads. -/
structure Message where
  contentType : String
  contentEncoding : String
  body : String
  deriving DecidableEq, Repr

/-- `Consumer.on_decode_error`: log at CRITICAL with the exception, the
content type, the content encoding and `dump_body(message, message.body)`,
then `message.ack()`. -/
def onDecodeError (m : Message) (exc : String) : List Ev :=
  [Ev.critDecodeError exc m.contentType m.contentEncoding m.body, Ev.ack]

/-! ### The `Consumer.info` property -/

/-- The dict returned by the `info` property. -/
structure InfoResult where
  broker : List (String × String)
  prefetchCount : Nat
  deriving DecidableEq, Repr

/-- `conninfo.pop('password', None)`: remove the `password` key from the
connection-info dict (dict keys are unique, so dropping every pair with
that key is `pop`). -/
def popPassword (d : List (String × String)) : List (String × String) :=
  d.filter (fun kv => kv.1 ≠ "password")

/-- The `Consumer.info` property: `broker` is the connection's `info()`
dict with `password` popped when a connection is present (`if
self.connection:`), and the empty dict otherwise; `prefetch_count` is
`qos.value`. -/
def consumerInfo (connection : Option (List (String × String)))
    (qosValue : Nat) : InfoResult :=
  match connection with
  | some d => { broker := popPassword d, prefetchCount := qosValue }
  | none => { broker := [], prefetchCount := qosValue }

/-! ### The supervisory loop: `Consumer.start`, `on_start`, and restarts -/

/-- Observable calls made during `Consumer.start` iterations. -/
inductive SEv where
  | shutdownCheck
  | updateStrategiesCall
  | initCallbackCall
  | stepsStart
  | loopInvoked
  | connRetryLog
  | restartCall
  deriving DecidableEq, Repr

/-- `Consumer.on_start` (the namespace's `on_start` hook): first
`self.update_strategies()`, then `self.init_callback(self)`. -/
def onStartEvents : List SEv := [SEv.updateStrategiesCall, SEv.initCallbackCall]

/-- Modelled from the spec: `celery.worker.bootsteps.Namespace.start` is not
under src/ (only this module's `ns.start(self)` calls are). Per the spec,
the supervisory loop "Start[s] all boot steps in order" on each iteration and
`update_strategies` "Runs at every boot and restart"; since
`update_strategies` runs only from the `on_start` hook the Consumer installs,
the step graph's `start` runs that hook and then starts the steps, on every
(re)start. -/
def nsStartEvents : List SEv := onStartEvents ++ [SEv.stepsStart]

/-- The error classes the `except` clause of `Consumer.start` names:
`self.connection_errors + self.channel_errors`. Error kinds are strings. -/
structure StartCfg where
  connectionErrors : List String
  channelErrors : List String
  deriving DecidableEq, Repr

/-- Whether a raised error kind is caught by
`except self.connection_errors + self.channel_errors`. -/
def recoverable (c : StartCfg) (k : String) : Bool :=
  k ∈ c.connectionErrors || k ∈ c.channelErrors

/-- What one iteration's `ns.start(self); loop(*loop_args)` body does,
supplied by the environment: the loop returns after the namespace state was
set to `CLOSE`, or `ns.start` raises (before anything observable), or the
event loop raises. -/
inductive IterOutcome where
  | close
  | raiseInStart (kind : String)
  | raiseInLoop (kind : String)
  deriving DecidableEq, Repr

/-- How a run of `Consumer.start` ended. -/
inductive StartResult where
  | exited
  | propagated (kind : String)
  | scriptExhausted
  deriving DecidableEq, Repr

/-- A run of `Consumer.start`: the calls it made and how it ended. -/
structure StartTrace where
  events : List SEv
  result : StartResult
  deriving DecidableEq, Repr

/-- The `while ns.state != CLOSE` body of `Consumer.start`, driven by a
script of per-iteration outcomes: `maybe_shutdown()` is checked; if the
`try` block raises a kind in `connection_errors + channel_errors`, the
`CONNECTION_RETRY` message is logged at ERROR, `self.restart()` is called
and the loop continues; any other raised kind propagates out; when the loop
returns (state now `CLOSE`) the `while` condition fails and `start`
returns. -/
def runStart (c : StartCfg) : List IterOutcome → StartTrace
  | [] => ⟨[], .scriptExhausted⟩
  | .close :: _ =>
      ⟨SEv.shutdownCheck :: nsStartEvents ++ [SEv.loopInvoked], .exited⟩
  | .raiseInStart k :: rest =>
    if recoverable c k then
      let t := runStart c rest
      ⟨SEv.shutdownCheck :: SEv.connRetryLog :: SEv.restartCall :: t.events,
       t.result⟩
    else ⟨[SEv.shutdownCheck], .propagated k⟩
  | .raiseInLoop k :: rest =>
    if recoverable c k then
      let t := runStart c rest
      ⟨SEv.shutdownCheck :: nsStartEvents ++
         [SEv.loopInvoked, SEv.connRetryLog, SEv.restartCall] ++ t.events,
       t.result⟩
    else
      ⟨SEv.shutdownCheck :: nsStartEvents ++ [SEv.loopInvoked], .propagated k⟩

/-- `Consumer.start` including the initial `while ns.state != CLOSE`
check: with the namespace already in `CLOSE`, no iteration runs. -/
def startConsumer (c : StartCfg) (stateIsClose : Bool)
    (script : List IterOutcome) : StartTrace :=
  if stateIsClose then ⟨[], .exited⟩ else runStart c script

/-- Spec-side count, following the claim's words: the number of iterations
of the script (as consumed by the supervisory loop) on which the boot-step
graph's `start` runs to completion. -/
def startedIters (c : StartCfg) : List IterOutcome → Nat
  | [] => 0
  | .close :: _ => 1
  | .raiseInStart k :: rest =>
      if recoverable c k then startedIters c rest else 0
  | .raiseInLoop k :: rest =>
      if recoverable c k then 1 + startedIters c rest else 1

/-! ### Concrete values used by witness theorems -/

/-- An empty consumer state. -/
def exState : ConsumerState :=
  { qosPending := 0, timer := [], readyQueue := [], reserved := [] }

/-- A revoked task. -/
def exRevokedTask : Task :=
  { id := "a1", name := "add", args := "(2, 3)", kwargs := "kw",
    retries := none, revoked := true, eta := none, expires := none,
    safeInfo := "info-a1" }

/-- A non-revoked task whose eta overflows `to_timestamp`. -/
def exOverflowTask : Task :=
  { id := "a2", name := "add", args := "(2, 3)", kwargs := "kw",
    retries := some 1, revoked := false,
    eta := some { dt := "9999-01-01 00:00:00", iso := "9999-01-01T00:00:00",
                  timestamp := none },
    expires := none, safeInfo := "info-a2" }

/-- A non-revoked ETA task whose eta converts successfully. -/
def exEtaTask : Task :=
  { id := "a3", name := "mul", args := "(4, 5)", kwargs := "kw",
    retries := none, revoked := false,
    eta := some { dt := "2026-01-01 00:00:00", iso := "2026-01-01T00:00:00",
                  timestamp := some 100 },
    expires := none, safeInfo := "info-a3" }

/-- A configuration with one connection-error kind and one
channel-error kind. -/
def exCfg : StartCfg :=
  { connectionErrors := ["ConnectionError"], channelErrors := ["ChannelError"] }

/-! ### Theorems -/

/-- C5: a task for which `task.revoked()` returns true makes `on_task`
return immediately: the consumer state (timer, ready queue, reserved set,
pending QoS delta) is unchanged and no event at all is emitted — no INFO
log, no `task-received` event, no ack. -/
theorem on_task_revoked_drops (doesInfo dispatcherEnabled : Bool) (t : Task)
    (s : ConsumerState) (h : t.revoked = true) :
    onTask doesInfo dispatcherEnabled t s = (s, []) := by
  simp [onTask, h]

/-- Witness for C5 at a concrete revoked task. -/
theorem on_task_revoked_drops_witness :
    onTask true true exRevokedTask exState = (exState, []) :=
  on_task_revoked_drops true true exRevokedTask exState rfl

/-- C3: a non-revoked ETA task whose `to_timestamp` conversion overflows
makes `on_task` log at ERROR (with the eta and the task's safe info),
acknowledge the message, and return with the state unchanged: no
`qos.increment_eventually`, no `timer.apply_at`, no ready-queue put. -/
theorem on_task_eta_overflow_acks (doesInfo dispatcherEnabled : Bool)
    (t : Task) (e : EtaVal) (s : ConsumerState)
    (h1 : t.revoked = false) (h2 : t.eta = some e) (h3 : e.timestamp = none) :
    (onTask doesInfo dispatcherEnabled t s).1 = s ∧
    (onTask doesInfo dispatcherEnabled t s).2 =
      ((if doesInfo then [Ev.gotTaskInfo t] else []) ++
       (if dispatcherEnabled then
          [Ev.taskReceived t.id t.name t.args t.kwargs (t.retries.getD 0)
            (some e.iso) t.expires]
        else [])) ++
      [Ev.etaOverflowError e.dt t.safeInfo, Ev.ack] ∧
    Ev.qosInc ∉ (onTask doesInfo dispatcherEnabled t s).2 ∧
    (∀ ts id p, Ev.timerApplyAt ts id p ∉ (onTask doesInfo dispatcherEnabled t s).2) ∧
    (∀ id, Ev.readyPut id ∉ (onTask doesInfo dispatcherEnabled t s).2) := by
  cases doesInfo <;> cases dispatcherEnabled <;>
    simp [onTask, h1, h2, h3]

/-- Witness for C3 at a concrete overflowing task. -/
theorem on_task_eta_overflow_acks_witness :
    (onTask true true exOverflowTask exState).1 = exState ∧
    (onTask true true exOverflowTask exState).2 =
      ((if true then [Ev.gotTaskInfo exOverflowTask] else []) ++
       (if true then
          [Ev.taskReceived exOverflowTask.id exOverflowTask.name
            exOverflowTask.args exOverflowTask.kwargs
            (exOverflowTask.retries.getD 0)
            (some "9999-01-01T00:00:00") exOverflowTask.expires]
        else [])) ++
      [Ev.etaOverflowError "9999-01-01 00:00:00" exOverflowTask.safeInfo,
       Ev.ack] ∧
    Ev.qosInc ∉ (onTask true true exOverflowTask exState).2 ∧
    (∀ ts id p,
      Ev.timerApplyAt ts id p ∉ (onTask true true exOverflowTask exState).2) ∧
    (∀ id, Ev.readyPut id ∉ (onTask true true exOverflowTask exState).2) :=
  on_task_eta_overflow_acks true true exOverflowTask
    { dt := "9999-01-01 00:00:00", iso := "9999-01-01T00:00:00",
      timestamp := none }
    exState rfl rfl rfl

/-- C8: `on_decode_error` logs at CRITICAL with the exception, the content
type, the content encoding and the raw body, then acks the message; it
never rejects, never puts on the ready queue, and never schedules on the
timer. -/
theorem on_decode_error_acks (m : Message) (exc : String) :
    onDecodeError m exc =
      [Ev.critDecodeError exc m.contentType m.contentEncoding m.body,
       Ev.ack] ∧
    Ev.reject ∉ onDecodeError m exc ∧
    (∀ id, Ev.readyPut id ∉ onDecodeError m exc) ∧
    (∀ ts id p, Ev.timerApplyAt ts id p ∉ onDecodeError m exc) := by
  simp [onDecodeError]

/-- Witness for C8 at a concrete undecodable message. -/
theorem on_decode_error_acks_witness :
    onDecodeError
        { contentType := "application/json", contentEncoding := "utf-8",
          body := "garbage" } "DecodeError" =
      [Ev.critDecodeError "DecodeError" "application/json" "utf-8"
        "garbage", Ev.ack] ∧
    Ev.reject ∉ onDecodeError
      { contentType := "application/json", contentEncoding := "utf-8",
        body := "garbage" } "DecodeError" ∧
    Ev.readyPut "a1" ∉ onDecodeError
      { contentType := "application/json", contentEncoding := "utf-8",
        body := "garbage" } "DecodeError" := by
  have h := on_decode_error_acks
    { contentType := "application/json", contentEncoding := "utf-8",
      body := "garbage" } "DecodeError"
  exact ⟨h.1, h.2.1, h.2.2.1 "a1"⟩

/-- C7: with `BROKER_CONNECTION_RETRY` false, `_open_connection` performs
exactly one `connect()` call (and in particular never calls
`ensure_connection`); a successful connect returns the connection, a
failing connect propagates its exception. -/
theorem open_connection_retry_disabled (retry : Bool) (maxRetries : Option Nat)
    (conn : ConnBehavior) (h : retry = false) :
    (openConnection retry maxRetries conn).2 = [OpenEv.connectCall] ∧
    (∀ mr, OpenEv.ensureConn mr ∉ (openConnection retry maxRetries conn).2) ∧
    (conn.connectExc = none →
      (openConnection retry maxRetries conn).1 = .ok ()) ∧
    (∀ e, conn.connectExc = some e →
      (openConnection retry maxRetries conn).1 = .error e) := by
  subst h
  cases hc : conn.connectExc <;> simp [openConnection, hc]

/-- Witness for C7: retry disabled with a failing connect propagates the
exception after a single connect call. -/
theorem open_connection_retry_disabled_witness :
    (openConnection false (some 3)
        { connectExc := some "ECONNREFUSED", ensureOutcome := .ok () }).2 =
      [OpenEv.connectCall] ∧
    (∀ mr, OpenEv.ensureConn mr ∉
      (openConnection false (some 3)
        { connectExc := some "ECONNREFUSED", ensureOutcome := .ok () }).2) ∧
    (openConnection false (some 3)
        { connectExc := some "ECONNREFUSED", ensureOutcome := .ok () }).1 =
      .error "ECONNREFUSED" := by
  have h := open_connection_retry_disabled false (some 3)
    { connectExc := some "ECONNREFUSED", ensureOutcome := .ok () } rfl
  exact ⟨h.1, h.2.1, h.2.2.2 "ECONNREFUSED" rfl⟩

/-- C9: the `info` property returns `prefetch_count = qos.value` and a
`broker` dict that is the connection's `info()` with the `password` key
removed when a connection is present (all other pairs kept), and the empty
dict when no connection is present. -/
theorem consumer_info_spec (connection : Option (List (String × String)))
    (qosValue : Nat) :
    (consumerInfo connection qosValue).prefetchCount = qosValue ∧
    (connection = none → (consumerInfo connection qosValue).broker = []) ∧
    (∀ d, connection = some d →
      (consumerInfo connection qosValue).broker = popPassword d ∧
      (∀ kv, kv ∈ (consumerInfo connection qosValue).broker →
        kv.1 ≠ "password" ∧ kv ∈ d) ∧
      (∀ kv, kv ∈ d → kv.1 ≠ "password" →
        kv ∈ (consumerInfo connection qosValue).broker)) := by
  refine ⟨?_, ?_, ?_⟩
  · cases connection <;> rfl
  · intro h; subst h; rfl
  · intro d hd; subst hd
    refine ⟨rfl, ?_, ?_⟩
    · intro kv hkv
      simp [consumerInfo, popPassword] at hkv
      exact ⟨hkv.2, hkv.1⟩
    · intro kv hkv hne
      simp [consumerInfo, popPassword]
      exact ⟨hkv, hne⟩

/-- First pass of `_shutdown_step` (`force=False`): the shutdown calls are
exactly the present non-delayed components in list order, and the returned
delayed list is exactly the present delayed components in list order. -/
lemma shutdownStep_false_spec (l : List (Option ShutComponent)) :
    (shutdownStep l false).2 =
      (l.filterMap id).filter (fun c => !c.delayShut) ∧
    (shutdownStep l false).1 =
      ((l.filterMap id).filter (fun c => c.delayShut)).map some := by
  induction l with
  | nil => exact ⟨rfl, rfl⟩
  | cons o rest ih =>
    cases o with
    | none => simpa [shutdownStep] using ih
    | some c =>
      by_cases hc : c.delayShut <;>
        simp [shutdownStep, hc, ih.1, ih.2]

/-- Second pass of `_shutdown_step` (`force=True`) over the collected
delayed components: every one gets its shutdown call, in order. -/
lemma shutdownStep_true_calls (l : List ShutComponent) :
    (shutdownStep (l.map some) true).2 = l := by
  induction l with
  | nil => rfl
  | cons c rest ih => simp [shutdownStep, ih]

/-- C2: `Namespace.shutdown` is two-phase. The first pass
(`force=False`) calls `shutdown(parent)` on exactly the (present)
components without `delay_shutdown`, in order; the second pass
(`force=True`) calls it on exactly the components with `delay_shutdown`,
in order; so the full call trace is all non-delayed shutdowns followed by
all delayed ones — every delayed component's shutdown is strictly after
every non-delayed one's. -/
theorem namespace_shutdown_two_phase
    (components : List (Option ShutComponent)) :
    (shutdownStep components false).2 =
      (components.filterMap id).filter (fun c => !c.delayShut) ∧
    (shutdownStep (shutdownStep components false).1 true).2 =
      (components.filterMap id).filter (fun c => c.delayShut) ∧
    nsShutdown components =
      (components.filterMap id).filter (fun c => !c.delayShut) ++
      (components.filterMap id).filter (fun c => c.delayShut) ∧
    (∀ c, c ∈ (shutdownStep components false).2 → c.delayShut = false) ∧
    (∀ c, c ∈ (shutdownStep (shutdownStep components false).1 true).2 →
      c.delayShut = true) := by
  obtain ⟨h2, h1⟩ := shutdownStep_false_spec components
  have h3 : (shutdownStep (shutdownStep components false).1 true).2 =
      (components.filterMap id).filter (fun c => c.delayShut) := by
    rw [h1, shutdownStep_true_calls]
  refine ⟨h2, h3, ?_, ?_, ?_⟩
  · show (shutdownStep components false).2 ++
      (shutdownStep (shutdownStep components false).1 true).2 = _
    rw [h2, h3]
  · intro c hc
    rw [h2] at hc
    simpa using (List.of_mem_filter hc)
  · intro c hc
    rw [h3] at hc
    simpa using (List.of_mem_filter hc)

/-- A non-delayed component. -/
def exStepA : ShutComponent := { name := "connection", delayShut := false }

/-- A delayed component (`delay_shutdown = True`). -/
def exStepB : ShutComponent := { name := "tasks", delayShut := true }

/-- Another non-delayed component. -/
def exStepC : ShutComponent := { name := "events", delayShut := false }

/-- A components list with a falsy entry and a delayed step in the
middle. -/
def exComponents : List (Option ShutComponent) :=
  [some exStepA, none, some exStepB, some exStepC]

/-- Witness for C2: on a concrete components list the delayed step's
shutdown comes after both non-delayed ones. -/
theorem namespace_shutdown_two_phase_witness :
    nsShutdown exComponents = [exStepA, exStepC] ++ [exStepB] ∧
    (∀ c, c ∈ (shutdownStep exComponents false).2 → c.delayShut = false) ∧
    exStepB.delayShut = true := by
  have h := namespace_shutdown_two_phase exComponents
  exact ⟨h.2.2.1.trans (by decide), h.2.2.2.1,
    h.2.2.2.2 exStepB (by decide)⟩

/-- The formatted `CONNECTION_RETRY_STEP` message is never the
`CONNECTION_FAILOVER` message, whatever the humanized interval is. -/
lemma tryingAgain_ne_failover (s : String) :
    "Trying again " ++ s ++ "..." ≠ connectionFailoverMsg := by
  intro h
  have hd := congrArg String.data h
  rw [String.data_append, String.data_append] at hd
  have h1 : ("Trying again " : String).data =
      'T' :: ("rying again " : String).data := rfl
  have h2 : (connectionFailoverMsg : String).data =
      'W' :: ("ill retry using next failover." : String).data := rfl
  rw [h1, h2] at hd
  simp at hd

/-- C6: `_error_handler` logs the failover continuation exactly when the
connection has a truthy `alt` and the retry interval is `0`; in every
other case it logs the `"Trying again {when}..."` message formatted with
the humanized interval. The connection URI and the exception are logged
in both cases. -/
theorem error_handler_failover_iff (conn : BrokerConn)
    (humanize : Nat → String) (exc : String) (interval : Nat) :
    ((errorHandler conn humanize exc interval).continuation =
        connectionFailoverMsg ↔ (conn.alt ≠ [] ∧ interval = 0)) ∧
    (¬(conn.alt ≠ [] ∧ interval = 0) →
      (errorHandler conn humanize exc interval).continuation =
        "Trying again " ++ humanize interval ++ "...") ∧
    (errorHandler conn humanize exc interval).uri = conn.uri ∧
    (errorHandler conn humanize exc interval).exc = exc := by
  by_cases hc : conn.alt ≠ [] ∧ interval = 0
  · have hcont : (errorHandler conn humanize exc interval).continuation =
        connectionFailoverMsg := by
      simp [errorHandler, if_pos hc, StepTemplate.formatWhen,
        connectionFailoverMsg]
    exact ⟨⟨fun _ => hc, fun _ => hcont⟩, fun h => absurd hc h, rfl, rfl⟩
  · have hcont : (errorHandler conn humanize exc interval).continuation =
        "Trying again " ++ humanize interval ++ "..." := by
      simp [errorHandler, if_neg hc, StepTemplate.formatWhen]
    refine ⟨?_, fun _ => hcont, rfl, rfl⟩
    rw [hcont]
    exact ⟨fun h => absurd h (tryingAgain_ne_failover _),
      fun h => absurd h hc⟩

/-- Witness for C6: with an alternate host and interval `0` the failover
message is logged; with interval `5` the retry-step message is logged. -/
theorem error_handler_failover_iff_witness :
    (errorHandler ⟨"amqp://h", ["amqp://backup"]⟩
        (fun n => toString n ++ "s") "err" 0).continuation =
      connectionFailoverMsg ∧
    (errorHandler ⟨"amqp://h", ["amqp://backup"]⟩
        (fun n => toString n ++ "s") "err" 5).continuation =
      "Trying again " ++ (fun n : Nat => toString n ++ "s") 5 ++ "..." := by
  have h0 := error_handler_failover_iff ⟨"amqp://h", ["amqp://backup"]⟩
    (fun n => toString n ++ "s") "err" 0
  have h5 := error_handler_failover_iff ⟨"amqp://h", ["amqp://backup"]⟩
    (fun n => toString n ++ "s") "err" 5
  refine ⟨h0.1.mpr ⟨by simp, rfl⟩, h5.2.1 ?_⟩
  intro h
  exact absurd h.2 (by decide)

/-- Witness for C9 at a concrete connection-info dict containing a
password. -/
theorem consumer_info_spec_witness :
    (consumerInfo (some [("hostname", "h"), ("password", "secret"),
        ("userid", "u")]) 4).prefetchCount = 4 ∧
    (consumerInfo (some [("hostname", "h"), ("password", "secret"),
        ("userid", "u")]) 4).broker =
      popPassword [("hostname", "h"), ("password", "secret"),
        ("userid", "u")] ∧
    (consumerInfo (none : Option (List (String × String))) 4).broker = [] := by
  have h1 := consumer_info_spec
    (some [("hostname", "h"), ("password", "secret"), ("userid", "u")]) 4
  have h2 := consumer_info_spec (none : Option (List (String × String))) 4
  exact ⟨h1.1,
    (h1.2.2 [("hostname", "h"), ("password", "secret"), ("userid", "u")]
      rfl).1,
    h2.2.1 rfl⟩

/-- A successful ETA ingestion increments the pending QoS delta by one and
emits exactly one `qos.increment_eventually` and no decrement. -/
lemma onTask_successful_qos (doesInfo dispatcherEnabled : Bool) (t : Task)
    (s : ConsumerState) (h : successfulEtaIngest t = true) :
    (onTask doesInfo dispatcherEnabled t s).1.qosPending = s.qosPending + 1 ∧
    (onTask doesInfo dispatcherEnabled t s).2.count Ev.qosInc = 1 ∧
    (onTask doesInfo dispatcherEnabled t s).2.count Ev.qosDec = 0 := by
  unfold successfulEtaIngest at h
  cases hr : t.revoked with
  | true => rw [hr] at h; simp at h
  | false =>
    cases he : t.eta with
    | none => rw [hr, he] at h; simp at h
    | some e =>
      cases hts : e.timestamp with
      | none => rw [hr, he] at h; simp [hts] at h
      | some ts =>
        cases doesInfo <;> cases dispatcherEnabled <;>
          simp [onTask, hr, he, hts, List.count_cons, List.count_append]

/-- QoS bookkeeping over a finite run: the pending delta moves by
ingestions minus fires, and the event trace holds one increment per
ingestion and one decrement per fire. -/
lemma runOps_qos_balance (doesInfo dispatcherEnabled : Bool)
    (ops : List EtaOp) (s : ConsumerState)
    (h : ∀ t, EtaOp.ingest t ∈ ops → successfulEtaIngest t = true) :
    (runOps doesInfo dispatcherEnabled s ops).1.qosPending =
      s.qosPending + (countIngests ops : Int) - (countFires ops : Int) ∧
    (runOps doesInfo dispatcherEnabled s ops).2.count Ev.qosInc =
      countIngests ops ∧
    (runOps doesInfo dispatcherEnabled s ops).2.count Ev.qosDec =
      countFires ops := by
  induction ops generalizing s with
  | nil => simp [runOps, countIngests, countFires]
  | cons op rest ih =>
    cases op with
    | ingest t =>
      have ht : successfulEtaIngest t = true := h t (by simp)
      have hrest : ∀ t', EtaOp.ingest t' ∈ rest →
          successfulEtaIngest t' = true :=
        fun t' ht' => h t' (List.mem_cons_of_mem _ ht')
      obtain ⟨hq, hinc, hdec⟩ :=
        onTask_successful_qos doesInfo dispatcherEnabled t s ht
      obtain ⟨ihq, ihinc, ihdec⟩ :=
        ih (onTask doesInfo dispatcherEnabled t s).1 hrest
      refine ⟨?_, ?_, ?_⟩
      · show (runOps doesInfo dispatcherEnabled
            (onTask doesInfo dispatcherEnabled t s).1 rest).1.qosPending = _
        rw [ihq, hq]
        simp only [countIngests, countFires, List.countP_cons]
        push_cast
        ring
      · show ((onTask doesInfo dispatcherEnabled t s).2 ++
            (runOps doesInfo dispatcherEnabled
              (onTask doesInfo dispatcherEnabled t s).1 rest).2).count
            Ev.qosInc = _
        rw [List.count_append, hinc, ihinc]
        simp [countIngests, List.countP_cons]
        omega
      · show ((onTask doesInfo dispatcherEnabled t s).2 ++
            (runOps doesInfo dispatcherEnabled
              (onTask doesInfo dispatcherEnabled t s).1 rest).2).count
            Ev.qosDec = _
        rw [List.count_append, hdec, ihdec]
        simp [countFires, List.countP_cons]
    | fire t =>
      have hrest : ∀ t', EtaOp.ingest t' ∈ rest →
          successfulEtaIngest t' = true :=
        fun t' ht' => h t' (List.mem_cons_of_mem _ ht')
      obtain ⟨ihq, ihinc, ihdec⟩ := ih (applyEtaTask t s).1 hrest
      refine ⟨?_, ?_, ?_⟩
      · show (runOps doesInfo dispatcherEnabled
            (applyEtaTask t s).1 rest).1.qosPending = _
        rw [ihq]
        show s.qosPending - 1 + _ - _ = _
        simp only [countIngests, countFires, List.countP_cons]
        push_cast
        ring
      · show ((applyEtaTask t s).2 ++
            (runOps doesInfo dispatcherEnabled
              (applyEtaTask t s).1 rest).2).count Ev.qosInc = _
        rw [List.count_append, ihinc]
        simp [applyEtaTask, countIngests, List.countP_cons, List.count_cons]
      · show ((applyEtaTask t s).2 ++
            (runOps doesInfo dispatcherEnabled
              (applyEtaTask t s).1 rest).2).count Ev.qosDec = _
        rw [List.count_append, ihdec]
        simp [applyEtaTask, countFires, List.countP_cons, List.count_cons]
        omega

/-- C4: over any finite sequence of successful ETA ingestions and timer
fires, each ingestion emits exactly one `qos.increment_eventually` and each
fire exactly one `qos.decrement_eventually` (issued after `task_reserved`
and the ready-queue put), so the net pending QoS delta is the number of ETA
tasks scheduled minus the number fired. -/
theorem eta_qos_balance (doesInfo dispatcherEnabled : Bool)
    (s : ConsumerState) (ops : List EtaOp)
    (h : ∀ t, EtaOp.ingest t ∈ ops → successfulEtaIngest t = true) :
    (runOps doesInfo dispatcherEnabled s ops).1.qosPending =
      s.qosPending + (countIngests ops : Int) - (countFires ops : Int) ∧
    (runOps doesInfo dispatcherEnabled s ops).2.count Ev.qosInc =
      countIngests ops ∧
    (runOps doesInfo dispatcherEnabled s ops).2.count Ev.qosDec =
      countFires ops ∧
    (∀ t s', (applyEtaTask t s').2 =
      [Ev.taskReserved t.id, Ev.readyPut t.id, Ev.qosDec]) := by
  obtain ⟨h1, h2, h3⟩ :=
    runOps_qos_balance doesInfo dispatcherEnabled ops s h
  exact ⟨h1, h2, h3, fun t s' => rfl⟩

/-- Witness for C4: one concrete ingestion followed by one fire leaves the
pending QoS delta where it started. -/
theorem eta_qos_balance_witness :
    (runOps true true exState
        [EtaOp.ingest exEtaTask, EtaOp.fire exEtaTask]).1.qosPending =
      exState.qosPending +
        (countIngests [EtaOp.ingest exEtaTask, EtaOp.fire exEtaTask] : Int) -
        (countFires [EtaOp.ingest exEtaTask, EtaOp.fire exEtaTask] : Int) ∧
    (runOps true true exState
        [EtaOp.ingest exEtaTask, EtaOp.fire exEtaTask]).2.count Ev.qosInc =
      countIngests [EtaOp.ingest exEtaTask, EtaOp.fire exEtaTask] ∧
    (runOps true true exState
        [EtaOp.ingest exEtaTask, EtaOp.fire exEtaTask]).2.count Ev.qosDec =
      countFires [EtaOp.ingest exEtaTask, EtaOp.fire exEtaTask] ∧
    (∀ t s', (applyEtaTask t s').2 =
      [Ev.taskReserved t.id, Ev.readyPut t.id, Ev.qosDec]) := by
  refine eta_qos_balance true true exState
    [EtaOp.ingest exEtaTask, EtaOp.fire exEtaTask] ?_
  intro t ht
  simp at ht
  subst ht
  rfl

/-- C1: the supervisory loop of `Consumer.start`. A raise from the boot
steps or the event loop whose kind is in
`connection_errors + channel_errors` is logged at ERROR with
`CONNECTION_RETRY`, followed by `restart()`, and the loop continues with
the remaining script; a raise of any other kind propagates out (no retry
log, no restart); with the namespace state already `CLOSE` the loop body
never runs; after the loop function returns (state set to `CLOSE`),
`start` exits normally. -/
theorem start_loop_broker_error_recovery (c : StartCfg) (k : String)
    (rest script : List IterOutcome) :
    (recoverable c k = true →
      runStart c (IterOutcome.raiseInLoop k :: rest) =
        ⟨SEv.shutdownCheck :: nsStartEvents ++
          [SEv.loopInvoked, SEv.connRetryLog, SEv.restartCall] ++
          (runStart c rest).events, (runStart c rest).result⟩ ∧
      runStart c (IterOutcome.raiseInStart k :: rest) =
        ⟨SEv.shutdownCheck :: SEv.connRetryLog :: SEv.restartCall ::
          (runStart c rest).events, (runStart c rest).result⟩) ∧
    (recoverable c k = false →
      (runStart c (IterOutcome.raiseInLoop k :: rest)).result =
        StartResult.propagated k ∧
      (runStart c (IterOutcome.raiseInStart k :: rest)).result =
        StartResult.propagated k ∧
      SEv.restartCall ∉
        (runStart c (IterOutcome.raiseInLoop k :: rest)).events ∧
      SEv.connRetryLog ∉
        (runStart c (IterOutcome.raiseInLoop k :: rest)).events) ∧
    startConsumer c true script = ⟨[], StartResult.exited⟩ ∧
    (runStart c (IterOutcome.close :: rest)).result = StartResult.exited := by
  refine ⟨?_, ?_, rfl, rfl⟩
  · intro h
    constructor <;> simp [runStart, h]
  · intro h
    refine ⟨?_, ?_, ?_, ?_⟩ <;>
      simp [runStart, h, nsStartEvents, onStartEvents]

/-- Witness for C1: with the concrete error classes, a `ConnectionError`
raised in the loop is recovered from and the run continues to a clean
exit; a `ValueError` propagates. -/
theorem start_loop_broker_error_recovery_witness :
    runStart exCfg
        [IterOutcome.raiseInLoop "ConnectionError", IterOutcome.close] =
      ⟨SEv.shutdownCheck :: nsStartEvents ++
        [SEv.loopInvoked, SEv.connRetryLog, SEv.restartCall] ++
        (runStart exCfg [IterOutcome.close]).events,
       (runStart exCfg [IterOutcome.close]).result⟩ ∧
    (runStart exCfg [IterOutcome.raiseInLoop "ValueError"]).result =
      StartResult.propagated "ValueError" := by
  have h1 := start_loop_broker_error_recovery exCfg "ConnectionError"
    [IterOutcome.close] []
  have h2 := start_loop_broker_error_recovery exCfg "ValueError" [] []
  exact ⟨(h1.1 (by decide)).1, (h2.2.1 (by decide)).1⟩

/-- The event trace of a supervisory run holds exactly one
`update_strategies` call and one `init_callback` call per completed
boot-step-graph start. -/
lemma runStart_count_hook (c : StartCfg) (script : List IterOutcome) :
    (runStart c script).events.count SEv.initCallbackCall =
      startedIters c script ∧
    (runStart c script).events.count SEv.updateStrategiesCall =
      startedIters c script := by
  induction script with
  | nil => exact ⟨rfl, rfl⟩
  | cons o rest ih =>
    cases o with
    | close =>
      constructor <;> rfl
    | raiseInStart k =>
      by_cases h : recoverable c k <;>
        simp [runStart, startedIters, h, ih.1, ih.2, List.count_cons]
    | raiseInLoop k =>
      by_cases h : recoverable c k
      · constructor <;>
          · simp [runStart, startedIters, h, ih.1, ih.2, List.count_cons,
              nsStartEvents, onStartEvents, List.count_append]
            omega
      · simp [runStart, startedIters, h, List.count_cons,
          nsStartEvents, onStartEvents, List.count_append]

/-- C10: `Consumer.on_start` first calls `update_strategies` and then
`init_callback(self)`; as the namespace's `on_start` hook it runs on every
(re)start of the boot-step graph, so `init_callback` fires once per
completed graph start — in particular twice in a run with one recovered
connection error, not once per Consumer lifetime as the `init_callback`
attribute documentation states. -/
theorem init_callback_every_restart (c : StartCfg)
    (script : List IterOutcome) :
    onStartEvents = [SEv.updateStrategiesCall, SEv.initCallbackCall] ∧
    (runStart c script).events.count SEv.initCallbackCall =
      startedIters c script ∧
    (runStart c script).events.count SEv.updateStrategiesCall =
      startedIters c script ∧
    (runStart exCfg [IterOutcome.raiseInLoop "ConnectionError",
        IterOutcome.close]).events.count SEv.initCallbackCall = 2 := by
  obtain ⟨h1, h2⟩ := runStart_count_hook c script
  exact ⟨rfl, h1, h2, by decide⟩

/-- Witness for C10: a run with one recovered connection error executes
`init_callback` twice. -/
theorem init_callback_every_restart_witness :
    onStartEvents = [SEv.updateStrategiesCall, SEv.initCallbackCall] ∧
    (runStart exCfg [IterOutcome.close]).events.count
      SEv.initCallbackCall = startedIters exCfg [IterOutcome.close] ∧
    (runStart exCfg [IterOutcome.raiseInLoop "ConnectionError",
        IterOutcome.close]).events.count SEv.initCallbackCall = 2 := by
  have h := init_callback_every_restart exCfg [IterOutcome.close]
  exact ⟨h.1, h.2.1, h.2.2.2⟩

end Celery
